import Mathlib

/-!
Verification of the AndroidManifestExported export filter
(src/lib/extractor.js) against its design specification.

The data model is a shallow embedding of the tree that xml2js (with
explicitArray: false) hands to the extractor: element children collected
under a repeatable tag are either a bare scalar (one occurrence) or an
array (several occurrences), and an absent key is modelled with Option.
Attribute maps (the JS "$" key) are flat string-keyed association lists.
Content the extractor never inspects (intent-filter bodies, permission
attributes, other child elements) is kept as opaque payloads that travel
verbatim.
-/

/-- A value of a repeatable element key as xml2js produces it with
explicitArray set to false: a bare scalar for a single occurrence or an
array for several. -/
inductive SoA (α : Type) : Type where
  | scalar (a : α)
  | array (xs : List α)
deriving DecidableEq

/-- Embeds the source helper normalizeToArray: wraps a scalar into a
one-element array and keeps an array as is. -/
def SoA.normalizeToArray {α : Type} : SoA α → List α
  | SoA.scalar a => [a]
  | SoA.array xs => xs

/-- An intent-filter child: an opaque blob whose content is never
inspected by the filter, only its presence matters. -/
structure IntentFilterNode where
  content : List (String × String)
deriving DecidableEq

/-- A component element (activity, service, receiver or provider):
its attribute map (the JS component.$, absent map modelled as the empty
list), its intent-filter key, and its other child elements, which are
opaque to the filter. -/
structure Component where
  attrs : List (String × String)
  intentFilter : Option (SoA IntentFilterNode)
  children : List (String × String)
deriving DecidableEq

/-- Number of intent-filter children a component owns. -/
def Component.intentFilterCount (c : Component) : Nat :=
  match c.intentFilter with
  | none => 0
  | some (SoA.scalar _) => 1
  | some (SoA.array xs) => xs.length

/-- A permission or uses-permission declaration: an opaque
attribute-bearing leaf carried through unconditionally. -/
structure PermissionNode where
  attrs : List (String × String)
deriving DecidableEq

/-- The application element: its attribute map, the four repeatable
component keys, and its other child elements (meta-data, activity-alias,
uses-library, ...), opaque to the filter. -/
structure Application where
  attrs : List (String × String)
  activity : Option (SoA Component)
  service : Option (SoA Component)
  receiver : Option (SoA Component)
  provider : Option (SoA Component)
  children : List (String × String)
deriving DecidableEq

/-- The manifest root element: attribute map, the optional application
child, the permission and uses-permission keys, and its other child
elements (uses-sdk, uses-feature, ...). -/
structure Manifest where
  attrs : List (String × String)
  application : Option Application
  permission : Option (SoA PermissionNode)
  usesPermission : Option (SoA PermissionNode)
  children : List (String × String)
deriving DecidableEq

/-- The application object of the rebuilt output tree: after
cleanupEmptyArrays each component key is either deleted (none) or holds
the selected components; no other child key is ever created. -/
structure OutApplication where
  attrs : List (String × String)
  activity : Option (List Component)
  service : Option (List Component)
  receiver : Option (List Component)
  provider : Option (List Component)
deriving DecidableEq

/-- The rebuilt output manifest: manifest attributes, the always-present
application object, and the permission keys when they were preserved. -/
structure OutManifest where
  attrs : List (String × String)
  application : OutApplication
  permission : Option (List PermissionNode)
  usesPermission : Option (List PermissionNode)
deriving DecidableEq

/-- The ANDROID_ATTRIBUTES.EXPORTED constant of the source. -/
def ANDROID_EXPORTED : String := "android:exported"

/-- The ANDROID_ATTRIBUTES.NAME constant of the source. -/
def ANDROID_NAME : String := "android:name"

/-- Embeds isComponentExported: false when the exported attribute is
the literal string false, otherwise selected when the attribute is the
literal string true or an intent-filter key is present. -/
def isComponentExported (component : Component) : Bool :=
  let exportedAttribute := component.attrs.lookup ANDROID_EXPORTED
  let hasIntentFilter := component.intentFilter.isSome
  if exportedAttribute == some "false" then
    false
  else
    (exportedAttribute == some "true") || hasIntentFilter

/-- Embeds the COMPONENT_ICONS table of the source. -/
def componentIcon (componentType : String) : String :=
  if componentType == "activity" then "📱"
  else if componentType == "service" then "🔧"
  else if componentType == "receiver" then "📡"
  else if componentType == "provider" then "🗄️"
  else "🔧"

/-- Embeds logComponentFound: the verbose line printed for one selected
component. -/
def logComponentFound (componentType : String) (component : Component) : String :=
  "  " ++ componentIcon componentType ++ " " ++ componentType.capitalize ++ ": " ++
    ((component.attrs.lookup ANDROID_NAME).getD "unnamed")

/-- Embeds the selection loop inside extractComponentType: walks the
normalized component list in source order, keeps each component passing
isComponentExported, counts it, and (when verbose) logs it. Returns
(selected components, count, log lines). -/
def extractComponentLoop (componentType : String) (verbose : Bool) :
    List Component → List Component × Nat × List String
  | [] => ([], 0, [])
  | component :: rest =>
    let r := extractComponentLoop componentType verbose rest
    if isComponentExported component then
      (component :: r.1, r.2.1 + 1,
        (if verbose then [logComponentFound componentType component] else []) ++ r.2.2)
    else
      r

/-- Embeds extractComponentType: absent key contributes nothing;
otherwise the value is normalized to an array and filtered by the loop. -/
def extractComponentType (source : Option (SoA Component))
    (componentType : String) (verbose : Bool) :
    List Component × Nat × List String :=
  match source with
  | none => ([], 0, [])
  | some s => extractComponentLoop componentType verbose s.normalizeToArray

/-- Embeds cleanupEmptyArrays for one component key: an empty array is
deleted from the application object (none), a non-empty one is kept. -/
def cleanupEmptyArrays (components : List Component) : Option (List Component) :=
  if components.isEmpty then none else some components

/-- The TypeError raised by the JS runtime when extractComponentType
receives undefined for sourceApp and evaluates sourceApp of
componentType; both source variants reach such a dereference when the
manifest has no application key. -/
def typeErrorMessage : String :=
  "TypeError: Cannot read properties of undefined (reading activity)"

/-- Embeds extractExportedComponents together with the helpers it calls
(createEmptyManifest, preserveManifestPermissions, cleanupEmptyArrays,
logIfVerbose). When manifest.application is undefined the call to
extractComponentType dereferences undefined and the JS runtime throws,
modelled by the error branch. On success it returns the rebuilt tree,
the total count and the verbose log lines in emission order. -/
def extractExportedComponents (manifest : Manifest) (verbose : Bool) :
    Except String ((OutManifest × Nat) × List String) :=
  match manifest.application with
  | none => Except.error typeErrorMessage
  | some app =>
    let a := extractComponentType app.activity "activity" verbose
    let s := extractComponentType app.service "service" verbose
    let r := extractComponentType app.receiver "receiver" verbose
    let p := extractComponentType app.provider "provider" verbose
    let totalFound := a.2.1 + s.2.1 + r.2.1 + p.2.1
    let searchLog := if verbose then ["🔍 Searching for exported components..."] else []
    let summaryLog :=
      if verbose then ["✅ Found " ++ toString totalFound ++ " exported components"] else []
    Except.ok
      (({ attrs := manifest.attrs
        , application :=
            { attrs := app.attrs
            , activity := cleanupEmptyArrays a.1
            , service := cleanupEmptyArrays s.1
            , receiver := cleanupEmptyArrays r.1
            , provider := cleanupEmptyArrays p.1 }
        , permission := manifest.permission.map SoA.normalizeToArray
        , usesPermission := manifest.usesPermission.map SoA.normalizeToArray },
        totalFound),
       searchLog ++ a.2.2 ++ s.2.2 ++ r.2.2 ++ p.2.2 ++ summaryLog)

/-- The returned tree and count of the extraction, with the verbose flag
off and the log discarded. -/
def extractTree (manifest : Manifest) : Except String (OutManifest × Nat) :=
  (extractExportedComponents manifest false).map Prod.fst

/-- The source sequence of one component kind as the loop sees it: the
normalized array, empty when the key is absent. -/
def sourceKindComponents (source : Option (SoA Component)) : List Component :=
  (source.map SoA.normalizeToArray).getD []

/-- The components of one kind that the classification predicate keeps,
in source order. -/
def selectedComponents (source : Option (SoA Component)) : List Component :=
  (sourceKindComponents source).filter isComponentExported

/-- The application object that extraction rebuilds from a given source
application: selected components per kind, empty kinds deleted. -/
def applicationOutput (app : Application) : OutApplication :=
  { attrs := app.attrs
  , activity := cleanupEmptyArrays (selectedComponents app.activity)
  , service := cleanupEmptyArrays (selectedComponents app.service)
  , receiver := cleanupEmptyArrays (selectedComponents app.receiver)
  , provider := cleanupEmptyArrays (selectedComponents app.provider) }

/-- The full output tree extraction rebuilds from a manifest whose
application is present. -/
def manifestOutput (m : Manifest) (app : Application) : OutManifest :=
  { attrs := m.attrs
  , application := applicationOutput app
  , permission := m.permission.map SoA.normalizeToArray
  , usesPermission := m.usesPermission.map SoA.normalizeToArray }

/-- Total number of qualifying components across the four kinds of a
source application. -/
def totalSelected (app : Application) : Nat :=
  (selectedComponents app.activity).length + (selectedComponents app.service).length +
    (selectedComponents app.receiver).length + (selectedComponents app.provider).length

/-- Number of components present in the rebuilt application object. -/
def OutApplication.totalComponents (app : OutApplication) : Nat :=
  (app.activity.getD []).length + (app.service.getD []).length +
    (app.receiver.getD []).length + (app.provider.getD []).length

/-- The components of the rebuilt application in the order the serializer
emits them: the builder walks the object keys in insertion order, which
createEmptyManifest fixes as activity, service, receiver, provider,
each tagged with its kind. -/
def OutApplication.orderedComponents (app : OutApplication) : List (String × Component) :=
  (app.activity.getD []).map (fun c => ("activity", c)) ++
    (app.service.getD []).map (fun c => ("service", c)) ++
    (app.receiver.getD []).map (fun c => ("receiver", c)) ++
    (app.provider.getD []).map (fun c => ("provider", c))

/-- Reads the output tree back as an input manifest, as happens when the
serialized output is parsed and filtered again: every kind key that
survived cleanup holds an array, the application object is present, and
no other child keys exist. -/
def OutManifest.toManifest (out : OutManifest) : Manifest :=
  { attrs := out.attrs
  , application := some
      { attrs := out.application.attrs
      , activity := out.application.activity.map SoA.array
      , service := out.application.service.map SoA.array
      , receiver := out.application.receiver.map SoA.array
      , provider := out.application.provider.map SoA.array
      , children := [] }
  , permission := out.permission.map SoA.array
  , usesPermission := out.usesPermission.map SoA.array
  , children := [] }

/-- Modelled from the spec: the outcome of the Document Model Adapter's
parse step (section 4.1), whose implementation is the external xml2js
library. Parsing either fails on text that is not well-formed markup
(carrying the underlying diagnostic) or yields a parse result in which
the manifest root key may be absent. -/
inductive ParseResult : Type where
  | parseFailure (diagnostic : String)
  | parsed (root : Option Manifest)
deriving DecidableEq

/-- The error taxonomy surfaced by the extract pipeline: the parser's
own rejection, the missing-root rejection raised by parseManifestFile,
and the runtime TypeError of the missing-application slip. -/
inductive PipelineError : Type where
  | parseError (diagnostic : String)
  | schemaError (message : String)
  | typeError (message : String)
deriving DecidableEq

/-- The message of the missing-root error thrown by parseManifestFile. -/
def schemaErrorMessage : String :=
  "Invalid AndroidManifest.xml file - no manifest root element found"

/-- The writes the pipeline performs for a parsed manifest: exactly the
rebuilt tree when extraction succeeds, nothing when it throws. -/
def treeWrites (manifest : Manifest) (verbose : Bool) : List OutManifest :=
  match extractExportedComponents manifest verbose with
  | Except.error _ => []
  | Except.ok ((tree, _), _) => [tree]

/-- Embeds the extract entry point around the modelled parse outcome:
a parse failure propagates as ParseError, a result without the manifest
root key raises the schema error, and otherwise the filter runs and the
single output write happens only after the full tree is built. The
second part of the result collects the trees written to the output
file. -/
def runPipeline (input : ParseResult) (verbose : Bool) :
    Except PipelineError Unit × List OutManifest :=
  match input with
  | ParseResult.parseFailure d => (Except.error (PipelineError.parseError d), [])
  | ParseResult.parsed none => (Except.error (PipelineError.schemaError schemaErrorMessage), [])
  | ParseResult.parsed (some manifest) =>
    match extractExportedComponents manifest verbose with
    | Except.error e => (Except.error (PipelineError.typeError e), [])
    | Except.ok ((tree, _), _) => (Except.ok (), [tree])

/-- An intent-filter blob carrying a VIEW action. -/
def viewFilter : IntentFilterNode :=
  { content := [("action", "android.intent.action.VIEW")] }

/-- An intent-filter blob carrying a BOOT_COMPLETED action. -/
def bootFilter : IntentFilterNode :=
  { content := [("action", "android.intent.action.BOOT_COMPLETED")] }

/-- Scenario activity with exported set to the literal false. -/
def activityMain : Component :=
  { attrs := [("android:name", ".MainActivity"), ("android:exported", "false")]
  , intentFilter := none, children := [] }

/-- Scenario activity with exported true and an intent-filter. -/
def activityExported : Component :=
  { attrs := [("android:name", ".ExportedActivity"), ("android:exported", "true")]
  , intentFilter := some (SoA.scalar viewFilter), children := [] }

/-- Scenario service with exported false. -/
def serviceBackground : Component :=
  { attrs := [("android:name", ".BackgroundService"), ("android:exported", "false")]
  , intentFilter := none, children := [] }

/-- Scenario receiver with exported true and a BOOT_COMPLETED filter. -/
def receiverBoot : Component :=
  { attrs := [("android:name", ".BootReceiver"), ("android:exported", "true")]
  , intentFilter := some (SoA.scalar bootFilter), children := [] }

/-- Scenario provider, unexported and without an intent-filter. -/
def providerData : Component :=
  { attrs := [("android:name", ".DataProvider"), ("android:exported", "false")]
  , intentFilter := none, children := [] }

/-- First scenario permission declaration. -/
def permissionA : PermissionNode :=
  { attrs := [("android:name", "com.example.PERMISSION_A")] }

/-- Second scenario permission declaration. -/
def permissionB : PermissionNode :=
  { attrs := [("android:name", "com.example.PERMISSION_B")] }

/-- The application of the end-to-end scenario of spec section 8. -/
def scenarioApp : Application :=
  { attrs := [("android:label", "App")]
  , activity := some (SoA.array [activityMain, activityExported])
  , service := some (SoA.scalar serviceBackground)
  , receiver := some (SoA.scalar receiverBoot)
  , provider := some (SoA.scalar providerData)
  , children := [] }

/-- The input manifest of the end-to-end scenario of spec section 8. -/
def scenarioManifest : Manifest :=
  { attrs := [("package", "com.example.app")]
  , application := some scenarioApp
  , permission := some (SoA.array [permissionA, permissionB])
  , usesPermission := none
  , children := [] }

/-- The expected output tree of the end-to-end scenario: one activity,
one receiver, no services, no providers, both permissions kept. -/
def scenarioOutput : OutManifest :=
  { attrs := [("package", "com.example.app")]
  , application :=
      { attrs := [("android:label", "App")]
      , activity := some [activityExported]
      , service := none
      , receiver := some [receiverBoot]
      , provider := none }
  , permission := some [permissionA, permissionB]
  , usesPermission := none }

/-- A manifest with no application element. -/
def noApplicationManifest : Manifest :=
  { attrs := [("package", "com.example")]
  , application := none
  , permission := none
  , usesPermission := some (SoA.scalar permissionA)
  , children := [] }

/-- Ordering scenario activity A, exported true. -/
def orderA : Component :=
  { attrs := [("android:name", ".A"), ("android:exported", "true")]
  , intentFilter := none, children := [] }

/-- Ordering scenario activity A2, unset and without an intent-filter. -/
def orderA2 : Component :=
  { attrs := [("android:name", ".A2")], intentFilter := none, children := [] }

/-- Ordering scenario activity A3, unset with an intent-filter. -/
def orderA3 : Component :=
  { attrs := [("android:name", ".A3")]
  , intentFilter := some (SoA.scalar viewFilter), children := [] }

/-- The application of the ordering scenario of spec section 8. -/
def orderingApp : Application :=
  { attrs := []
  , activity := some (SoA.array [orderA, orderA2, orderA3])
  , service := none
  , receiver := some (SoA.scalar receiverBoot)
  , provider := none
  , children := [] }

/-- The input manifest of the ordering scenario. -/
def orderingManifest : Manifest :=
  { attrs := [("package", "com.example.order")]
  , application := some orderingApp
  , permission := none
  , usesPermission := none
  , children := [] }

/-- An application carrying extra child elements the filter drops, and
no components at all. -/
def frameApp : Application :=
  { attrs := [("android:icon", "ic_launcher")]
  , activity := none
  , service := none
  , receiver := none
  , provider := some (SoA.scalar providerData)
  , children := [("meta-data", "value"), ("uses-library", "lib")] }

/-- A manifest carrying extra manifest-level children the filter drops. -/
def frameManifest : Manifest :=
  { attrs := [("package", "com.example.frame")]
  , application := some frameApp
  , permission := none
  , usesPermission := some (SoA.scalar permissionB)
  , children := [("uses-sdk", "7"), ("uses-feature", "camera")] }

/-- A component with the exported attribute unset and one
intent-filter child. -/
def unsetWithFilter : Component :=
  { attrs := [("android:name", ".W")]
  , intentFilter := some (SoA.scalar viewFilter), children := [] }

/-- The expected output tree of the ordering scenario: activities A and
A3 in that order, the receiver, nothing else, three components total. -/
def orderingOutput : OutManifest :=
  { attrs := [("package", "com.example.order")]
  , application :=
      { attrs := []
      , activity := some [orderA, orderA3]
      , service := none
      , receiver := some [receiverBoot]
      , provider := none }
  , permission := none
  , usesPermission := none }

/-- The selection loop keeps exactly the components passing the
predicate, in source order. -/
theorem extractComponentLoop_fst (componentType : String) (verbose : Bool)
    (l : List Component) :
    (extractComponentLoop componentType verbose l).1 = l.filter isComponentExported := by
  induction l with
  | nil => rfl
  | cons c rest ih =>
    by_cases hc : isComponentExported c <;>
      simp [extractComponentLoop, hc, List.filter_cons, ih]

/-- The selection loop counts exactly the components it keeps. -/
theorem extractComponentLoop_count (componentType : String) (verbose : Bool)
    (l : List Component) :
    (extractComponentLoop componentType verbose l).2.1 =
      (l.filter isComponentExported).length := by
  induction l with
  | nil => rfl
  | cons c rest ih =>
    by_cases hc : isComponentExported c <;>
      simp [extractComponentLoop, hc, List.filter_cons, ih]

/-- Per-kind extraction returns the selected components of the kind. -/
theorem extractComponentType_fst (source : Option (SoA Component))
    (componentType : String) (verbose : Bool) :
    (extractComponentType source componentType verbose).1 = selectedComponents source := by
  cases source with
  | none => rfl
  | some s =>
    simp [extractComponentType, selectedComponents, sourceKindComponents,
      extractComponentLoop_fst]

/-- Per-kind extraction counts the selected components of the kind. -/
theorem extractComponentType_count (source : Option (SoA Component))
    (componentType : String) (verbose : Bool) :
    (extractComponentType source componentType verbose).2.1 =
      (selectedComponents source).length := by
  cases source with
  | none => rfl
  | some s =>
    simp [extractComponentType, selectedComponents, sourceKindComponents,
      extractComponentLoop_count]

/-- Characterization of the extraction result on a manifest whose
application is present. -/
theorem extractTree_eq (m : Manifest) (app : Application)
    (happ : m.application = some app) :
    extractTree m = Except.ok (manifestOutput m app, totalSelected app) := by
  simp [extractTree, extractExportedComponents, happ, Except.map, manifestOutput,
    applicationOutput, totalSelected, extractComponentType_fst, extractComponentType_count]

/-- Recovering the list a kind key holds after cleanup. -/
theorem cleanup_getD (l : List Component) : (cleanupEmptyArrays l).getD [] = l := by
  cases l <;> simp [cleanupEmptyArrays]

/-- A kind key is deleted by cleanup exactly when nothing was selected. -/
theorem cleanup_eq_none_iff (l : List Component) :
    cleanupEmptyArrays l = none ↔ l = [] := by
  cases l <;> simp [cleanupEmptyArrays]

/-- The selection predicate holds on everything it selected, so a second
filter changes nothing. -/
theorem filter_selected (source : Option (SoA Component)) :
    (selectedComponents source).filter isComponentExported = selectedComponents source :=
  List.filter_eq_self.mpr fun _ ha => List.of_mem_filter ha

/-- Re-reading a cleaned kind key as input and selecting again yields
the already selected components. -/
theorem selected_roundtrip (source : Option (SoA Component)) :
    selectedComponents
        ((cleanupEmptyArrays (selectedComponents source)).map SoA.array) =
      selectedComponents source := by
  have hfix := filter_selected source
  rcases hl : selectedComponents source with _ | ⟨c, cs⟩
  · simp [cleanupEmptyArrays, selectedComponents, sourceKindComponents]
  · rw [hl] at hfix
    have hclean : cleanupEmptyArrays (c :: cs) = some (c :: cs) := by
      simp [cleanupEmptyArrays]
    simp only [hclean, Option.map_some]
    simpa [selectedComponents, sourceKindComponents, SoA.normalizeToArray] using hfix

/-- Normalizing an array wrapper is the identity on the payload. -/
theorem normalize_array_map (q : Option (List PermissionNode)) :
    (q.map SoA.array).map SoA.normalizeToArray = q := by
  cases q <;> simp [SoA.normalizeToArray]

/-- Normalizing an array wrapper is the identity, pointwise form. -/
theorem normalize_array_cancel {α : Type} (xs : List α) :
    (SoA.array xs).normalizeToArray = xs := rfl

/-- Re-normalizing a permission key that was normalized and re-wrapped
as an array changes nothing. -/
theorem map_normalize_array_normalize (q : Option (SoA PermissionNode)) :
    Option.map (SoA.normalizeToArray ∘ SoA.array ∘ SoA.normalizeToArray) q =
      Option.map SoA.normalizeToArray q := by
  cases q <;> rfl

/-- C1: a component is selected by the classification predicate iff its
exported attribute equals the literal string true, or the attribute is
unset (absent or any value other than the literal lowercase strings
true/false) and the component owns at least one intent-filter child; in
particular a component whose exported attribute equals the literal
string false is never selected, even with intent-filter children. The
hypothesis excludes the unreachable representation of an intent-filter
key holding an empty array, which the parser never produces. -/
theorem isComponentExported_classification (c : Component)
    (h : c.intentFilter ≠ some (SoA.array [])) :
    isComponentExported c = true ↔
      (c.attrs.lookup ANDROID_EXPORTED = some "true" ∨
        (c.attrs.lookup ANDROID_EXPORTED ≠ some "true" ∧
         c.attrs.lookup ANDROID_EXPORTED ≠ some "false" ∧
         0 < c.intentFilterCount)) := by
  have hif : (c.intentFilter.isSome = true) ↔ 0 < c.intentFilterCount := by
    cases hfi : c.intentFilter with
    | none => simp [Component.intentFilterCount, hfi]
    | some s =>
      cases s with
      | scalar a => simp [Component.intentFilterCount, hfi]
      | array xs =>
        cases xs with
        | nil => exact absurd hfi h
        | cons y ys => simp [Component.intentFilterCount, hfi]
  by_cases hf : c.attrs.lookup ANDROID_EXPORTED = some "false"
  · simp [isComponentExported, hf]
  · by_cases ht : c.attrs.lookup ANDROID_EXPORTED = some "true"
    · simp [isComponentExported, ht, hf]
    · simp [isComponentExported, ht, hf, hif]

/-- Witness for C1 at a component with the exported attribute unset and
one intent-filter child. -/
theorem isComponentExported_classification_witness :
    isComponentExported unsetWithFilter = true ↔
      (unsetWithFilter.attrs.lookup ANDROID_EXPORTED = some "true" ∨
        (unsetWithFilter.attrs.lookup ANDROID_EXPORTED ≠ some "true" ∧
         unsetWithFilter.attrs.lookup ANDROID_EXPORTED ≠ some "false" ∧
         0 < unsetWithFilter.intentFilterCount)) :=
  isComponentExported_classification unsetWithFilter (by decide)

/-- C2: evaluation at the failing input. On a manifest without an
application element the extraction does not return a component-free
manifest as the spec requires; it raises the runtime TypeError thrown
when extractComponentType dereferences the undefined application. -/
theorem extract_missing_application_type_error :
    extractTree noApplicationManifest = Except.error typeErrorMessage := rfl

/-- C4: whenever extraction returns a tree and a count, the reported
count equals the number of components present in the returned tree. -/
theorem extract_count_matches_output (m : Manifest) (out : OutManifest) (n : Nat)
    (h : extractTree m = Except.ok (out, n)) :
    n = out.application.totalComponents := by
  cases happ : m.application with
  | none => simp [extractTree, extractExportedComponents, happ, Except.map] at h
  | some app =>
    rw [extractTree_eq m app happ] at h
    simp only [Except.ok.injEq, Prod.mk.injEq] at h
    obtain ⟨hout, hn⟩ := h
    subst hout hn
    simp [totalSelected, OutApplication.totalComponents, manifestOutput, applicationOutput,
      cleanup_getD]

/-- Witness for C4 at the end-to-end scenario of spec section 8: the
reported count is 2 and matches the two components of the output. -/
theorem extract_count_matches_output_witness :
    extractTree scenarioManifest = Except.ok (scenarioOutput, 2) ∧
      (2 : Nat) = scenarioOutput.application.totalComponents :=
  ⟨rfl, extract_count_matches_output scenarioManifest scenarioOutput 2 (by rfl)⟩

/-- C6: the output application omits a component-kind key exactly when
no component of that kind qualifies. -/
theorem extract_omits_empty_kinds (m : Manifest) (app : Application)
    (out : OutManifest) (n : Nat) (happ : m.application = some app)
    (h : extractTree m = Except.ok (out, n)) :
    (out.application.activity = none ↔ selectedComponents app.activity = []) ∧
      (out.application.service = none ↔ selectedComponents app.service = []) ∧
      (out.application.receiver = none ↔ selectedComponents app.receiver = []) ∧
      (out.application.provider = none ↔ selectedComponents app.provider = []) := by
  rw [extractTree_eq m app happ] at h
  simp only [Except.ok.injEq, Prod.mk.injEq] at h
  obtain ⟨hout, -⟩ := h
  subst hout
  simp [manifestOutput, applicationOutput, cleanup_eq_none_iff]

/-- Witness for C6 at the section 8 scenario, whose service and provider
kinds have no qualifying component and are omitted. -/
theorem extract_omits_empty_kinds_witness :
    (scenarioOutput.application.activity = none ↔
        selectedComponents scenarioApp.activity = []) ∧
      (scenarioOutput.application.service = none ↔
        selectedComponents scenarioApp.service = []) ∧
      (scenarioOutput.application.receiver = none ↔
        selectedComponents scenarioApp.receiver = []) ∧
      (scenarioOutput.application.provider = none ↔
        selectedComponents scenarioApp.provider = []) :=
  extract_omits_empty_kinds scenarioManifest scenarioApp scenarioOutput 2 rfl (by rfl)

/-- C9: the returned tree and count do not depend on the verbosity
flag; verbose logging is purely observational. -/
theorem extract_verbose_independent (m : Manifest) :
    (extractExportedComponents m true).map Prod.fst =
      (extractExportedComponents m false).map Prod.fst := by
  cases happ : m.application with
  | none => simp [extractExportedComponents, happ]
  | some app =>
    simp [extractExportedComponents, happ, Except.map,
      extractComponentType_fst, extractComponentType_count]

/-- C10: on any manifest with an application element the output has
exactly the rebuilt shape: the manifest attribute map, the application
object holding its attribute map and the cleaned kind keys, and the
permission and uses-permission keys exactly when present in the input;
moreover the result is unchanged when every other manifest-level and
application-level child is removed from the input, so none of them
reaches the output. -/
theorem extract_output_shape (m : Manifest) (app : Application)
    (happ : m.application = some app) :
    extractTree m = Except.ok (manifestOutput m app, totalSelected app) ∧
      extractTree
          { m with children := [], application := some { app with children := [] } } =
        extractTree m := by
  refine ⟨extractTree_eq m app happ, ?_⟩
  rw [extractTree_eq m app happ,
    extractTree_eq { m with children := [], application := some { app with children := [] } }
      { app with children := [] } rfl]
  rfl

/-- Witness for C10 at a manifest carrying uses-sdk, uses-feature,
meta-data and uses-library children, all absent from the output. -/
theorem extract_output_shape_witness :
    extractTree frameManifest =
        Except.ok (manifestOutput frameManifest frameApp, totalSelected frameApp) ∧
      extractTree
          { frameManifest with children := [], application := some { frameApp with children := [] } } =
        extractTree frameManifest :=
  extract_output_shape frameManifest frameApp rfl

/-- C3: the export filter is idempotent: whenever extraction returns a
tree and a count, re-reading that tree as an input and extracting again
returns the structurally identical tree and the same count. -/
theorem extract_idempotent (m : Manifest) (out : OutManifest) (n : Nat)
    (h : extractTree m = Except.ok (out, n)) :
    extractTree out.toManifest = Except.ok (out, n) := by
  cases happ : m.application with
  | none => simp [extractTree, extractExportedComponents, happ, Except.map] at h
  | some app =>
    rw [extractTree_eq m app happ] at h
    simp only [Except.ok.injEq, Prod.mk.injEq] at h
    obtain ⟨hout, hn⟩ := h
    subst hout hn
    rw [extractTree_eq (OutManifest.toManifest (manifestOutput m app)) _ rfl]
    simp [OutManifest.toManifest, manifestOutput, applicationOutput, totalSelected,
      selected_roundtrip, normalize_array_map, normalize_array_cancel,
      map_normalize_array_normalize]

/-- Witness for C3: running the filter on the output of the section 8
scenario returns that output and the same count again. -/
theorem extract_idempotent_witness :
    extractTree (OutManifest.toManifest scenarioOutput) = Except.ok (scenarioOutput, 2) :=
  extract_idempotent scenarioManifest scenarioOutput 2 (by rfl)

/-- C5: inside each kind the output keeps the selected components in
their relative source order (the selected sequence is a sublist of the
source sequence), and the serializer emits the kinds in the fixed order
activity, service, receiver, provider. -/
theorem extract_order_preserved (m : Manifest) (app : Application)
    (out : OutManifest) (n : Nat) (happ : m.application = some app)
    (h : extractTree m = Except.ok (out, n)) :
    out.application.orderedComponents =
        ((selectedComponents app.activity).map (fun c => ("activity", c)) ++
          (selectedComponents app.service).map (fun c => ("service", c)) ++
          (selectedComponents app.receiver).map (fun c => ("receiver", c)) ++
          (selectedComponents app.provider).map (fun c => ("provider", c))) ∧
      List.Sublist (selectedComponents app.activity) (sourceKindComponents app.activity) ∧
      List.Sublist (selectedComponents app.service) (sourceKindComponents app.service) ∧
      List.Sublist (selectedComponents app.receiver) (sourceKindComponents app.receiver) ∧
      List.Sublist (selectedComponents app.provider) (sourceKindComponents app.provider) := by
  rw [extractTree_eq m app happ] at h
  simp only [Except.ok.injEq, Prod.mk.injEq] at h
  obtain ⟨hout, -⟩ := h
  subst hout
  refine ⟨?_, List.filter_sublist _, List.filter_sublist _,
    List.filter_sublist _, List.filter_sublist _⟩
  simp [manifestOutput, applicationOutput, OutApplication.orderedComponents, cleanup_getD]

/-- Witness for C5 at the ordering scenario of spec section 8: source
activities A, A2, A3 yield the output activity sequence A, A3 in that
relative order, before the receiver. -/
theorem extract_order_preserved_witness :
    orderingOutput.application.orderedComponents =
        ((selectedComponents orderingApp.activity).map (fun c => ("activity", c)) ++
          (selectedComponents orderingApp.service).map (fun c => ("service", c)) ++
          (selectedComponents orderingApp.receiver).map (fun c => ("receiver", c)) ++
          (selectedComponents orderingApp.provider).map (fun c => ("provider", c))) ∧
      List.Sublist (selectedComponents orderingApp.activity)
        (sourceKindComponents orderingApp.activity) ∧
      List.Sublist (selectedComponents orderingApp.service)
        (sourceKindComponents orderingApp.service) ∧
      List.Sublist (selectedComponents orderingApp.receiver)
        (sourceKindComponents orderingApp.receiver) ∧
      List.Sublist (selectedComponents orderingApp.provider)
        (sourceKindComponents orderingApp.provider) :=
  extract_order_preserved orderingManifest orderingApp orderingOutput 3 rfl (by rfl)

/-- C7: every selected component is carried into the output verbatim
(each kind key of the output holds exactly the selected source
components, unchanged with their attributes and children), and the
manifest attributes, application attributes and both permission kinds
are carried over unconditionally. -/
theorem extract_preserves_selected_and_metadata (m : Manifest) (app : Application)
    (out : OutManifest) (n : Nat) (happ : m.application = some app)
    (h : extractTree m = Except.ok (out, n)) :
    out.application.activity.getD [] = selectedComponents app.activity ∧
      out.application.service.getD [] = selectedComponents app.service ∧
      out.application.receiver.getD [] = selectedComponents app.receiver ∧
      out.application.provider.getD [] = selectedComponents app.provider ∧
      out.attrs = m.attrs ∧
      out.application.attrs = app.attrs ∧
      out.permission = m.permission.map SoA.normalizeToArray ∧
      out.usesPermission = m.usesPermission.map SoA.normalizeToArray := by
  rw [extractTree_eq m app happ] at h
  simp only [Except.ok.injEq, Prod.mk.injEq] at h
  obtain ⟨hout, -⟩ := h
  subst hout
  refine ⟨?_, ?_, ?_, ?_, rfl, rfl, rfl, rfl⟩ <;>
    simp [manifestOutput, applicationOutput, cleanup_getD]

/-- Witness for C7 at the section 8 scenario. -/
theorem extract_preserves_selected_and_metadata_witness :
    scenarioOutput.application.activity.getD [] =
        selectedComponents scenarioApp.activity ∧
      scenarioOutput.application.service.getD [] =
        selectedComponents scenarioApp.service ∧
      scenarioOutput.application.receiver.getD [] =
        selectedComponents scenarioApp.receiver ∧
      scenarioOutput.application.provider.getD [] =
        selectedComponents scenarioApp.provider ∧
      scenarioOutput.attrs = scenarioManifest.attrs ∧
      scenarioOutput.application.attrs = scenarioApp.attrs ∧
      scenarioOutput.permission = scenarioManifest.permission.map SoA.normalizeToArray ∧
      scenarioOutput.usesPermission =
        scenarioManifest.usesPermission.map SoA.normalizeToArray :=
  extract_preserves_selected_and_metadata scenarioManifest scenarioApp scenarioOutput 2
    rfl (by rfl)

/-- C8: a parse failure surfaces as a ParseError carrying the parser
diagnostic with nothing written; a parse result without the manifest
root surfaces as the SchemaError with its distinct message and nothing
written; any failing run writes nothing; and a successful run writes
exactly the fully built tree, once. -/
theorem pipeline_error_handling (d : String) (v : Bool) (input : ParseResult)
    (mf : Manifest) (h : (runPipeline input v).1.isOk = false) :
    runPipeline (ParseResult.parseFailure d) v =
        (Except.error (PipelineError.parseError d), []) ∧
      runPipeline (ParseResult.parsed none) v =
        (Except.error (PipelineError.schemaError schemaErrorMessage), []) ∧
      PipelineError.parseError d ≠ PipelineError.schemaError schemaErrorMessage ∧
      (runPipeline input v).2 = [] ∧
      (runPipeline (ParseResult.parsed (some mf)) v).2 = treeWrites mf v := by
  refine ⟨rfl, rfl, by simp, ?_, ?_⟩
  · cases input with
    | parseFailure d2 => rfl
    | parsed root =>
      cases root with
      | none => rfl
      | some m2 =>
        cases hex : extractExportedComponents m2 v with
        | error e => simp [runPipeline, hex]
        | ok val =>
          obtain ⟨⟨tree, cnt⟩, log⟩ := val
          simp [runPipeline, hex, Except.isOk, Except.toBool] at h
  · cases hex : extractExportedComponents mf v with
    | error e => simp [runPipeline, treeWrites, hex]
    | ok val =>
      obtain ⟨⟨tree, cnt⟩, log⟩ := val
      simp [runPipeline, treeWrites, hex]

/-- Witness for C8 at a concrete parse failure, the missing-root result
and the section 8 manifest. -/
theorem pipeline_error_handling_witness :
    runPipeline (ParseResult.parseFailure "Unexpected close tag") false =
        (Except.error (PipelineError.parseError "Unexpected close tag"), []) ∧
      runPipeline (ParseResult.parsed none) false =
        (Except.error (PipelineError.schemaError schemaErrorMessage), []) ∧
      PipelineError.parseError "Unexpected close tag" ≠
        PipelineError.schemaError schemaErrorMessage ∧
      (runPipeline (ParseResult.parsed none) false).2 = [] ∧
      (runPipeline (ParseResult.parsed (some scenarioManifest)) false).2 =
        treeWrites scenarioManifest false :=
  pipeline_error_handling "Unexpected close tag" false (ParseResult.parsed none)
    scenarioManifest (by rfl)
